import Mathlib

/-!
Shallow embedding of the nats-forge provisioning tool.

The Rust sources embedded here:
  * src/lib.rs    : the single-server pipeline type NatsSetup and its methods
                    (normalization, initialize, generate_server_config,
                    extract_account_id);
  * src/nsc.rs    : the standalone issuer-gateway functions (create_operator,
                    extract_account_id);
  * src/server.rs : the multi-server config renderer generate_server_config;
  * src/config.rs : the configuration data model.

External effects (the nsc process, the filesystem, fresh UUIDs) are made
explicit parameters: the nsc invocations a run issues are reified as a trace
of calls, the filesystem is a partial map from paths to contents, and the
random discriminators drawn during normalization are passed in.  A Rust
panic is modelled as Option.none.
-/

namespace NatsForge

/-- Rust str::split on a single separator character: splitting an empty
string yields one empty piece, and every separator starts a new piece. -/
def splitChar (sep : Char) : List Char → List (List Char)
  | [] => [[]]
  | c :: rest =>
    let r := splitChar sep rest
    if c = sep then [] :: r
    else
      match r with
      | [] => [[c]]
      | h :: t => (c :: h) :: t

/-- Split a string on the dot character, as jwt.split('.') does. -/
def splitDot (s : String) : List String :=
  (splitChar ('.') s.data).map (fun l => String.mk l)

/-- Value of one character of the standard base64 alphabet. -/
def b64Val (c : Char) : Option Nat :=
  let n := c.toNat
  if 65 ≤ n ∧ n ≤ 90 then some (n - 65)
  else if 97 ≤ n ∧ n ≤ 122 then some (n - 97 + 26)
  else if 48 ≤ n ∧ n ≤ 57 then some (n - 48 + 52)
  else if c = '+' then some 62
  else if c = '/' then some 63
  else none

/-- Reassemble bytes from base64 sextet values, unpadded (STANDARD_NO_PAD):
a trailing group of one sextet is invalid, and unused trailing bits must be
zero, as the base64 crate checks. -/
def b64DecodeVals : List Nat → Option (List Nat)
  | [] => some []
  | [_] => none
  | [a, b] => if b % 16 = 0 then some [a * 4 + b / 16] else none
  | [a, b, c] =>
    if c % 4 = 0 then some [a * 4 + b / 16, (b % 16) * 16 + c / 4] else none
  | a :: b :: c :: d :: rest => do
    let tail ← b64DecodeVals rest
    some ([a * 4 + b / 16, (b % 16) * 16 + c / 4, (c % 4) * 64 + d] ++ tail)

/-- Decode an unpadded standard-alphabet base64 string to bytes. -/
def base64Decode (s : String) : Option (List Nat) := do
  let vals ← s.data.mapM b64Val
  b64DecodeVals vals

/-- Whether a byte is a UTF-8 continuation byte. -/
def utf8Cont (b : Nat) : Bool := 128 ≤ b && b < 192

/-- Strict UTF-8 decoding of a byte list, rejecting overlong forms,
surrogates and out-of-range code points, as String::from_utf8 does. -/
def utf8DecodeList : List Nat → Option (List Char)
  | [] => some []
  | b :: rest =>
    if b < 128 then do
      let t ← utf8DecodeList rest
      some (Char.ofNat b :: t)
    else if b < 192 then none
    else if b < 224 then
      match rest with
      | b2 :: rest2 =>
        if utf8Cont b2 then
          let cp := (b - 192) * 64 + (b2 - 128)
          if cp < 128 then none
          else do
            let t ← utf8DecodeList rest2
            some (Char.ofNat cp :: t)
        else none
      | [] => none
    else if b < 240 then
      match rest with
      | b2 :: b3 :: rest3 =>
        if utf8Cont b2 && utf8Cont b3 then
          let cp := (b - 224) * 4096 + (b2 - 128) * 64 + (b3 - 128)
          if cp < 2048 then none
          else if 55296 ≤ cp ∧ cp < 57344 then none
          else do
            let t ← utf8DecodeList rest3
            some (Char.ofNat cp :: t)
        else none
      | _ => none
    else if b < 245 then
      match rest with
      | b2 :: b3 :: b4 :: rest4 =>
        if utf8Cont b2 && utf8Cont b3 && utf8Cont b4 then
          let cp := (b - 240) * 262144 + (b2 - 128) * 4096
            + (b3 - 128) * 64 + (b4 - 128)
          if cp < 65536 ∨ 1114111 < cp then none
          else do
            let t ← utf8DecodeList rest4
            some (Char.ofNat cp :: t)
        else none
      | _ => none
    else none

/-- Structured JSON values, with numbers kept as their source lexeme. -/
inductive JValue where
  | null
  | boolean (b : Bool)
  | number (lexeme : String)
  | string (s : String)
  | array (items : List JValue)
  | object (fields : List (String × JValue))
  deriving Repr, Inhabited

/-- JSON insignificant whitespace. -/
def isJsonWs (c : Char) : Bool := c = ' ' || c = '\t' || c = '\n' || c = '\r'

/-- Drop leading JSON whitespace. -/
def skipWs : List Char → List Char
  | c :: rest => if isJsonWs c then skipWs rest else c :: rest
  | [] => []

/-- Left brace character, written by code point. -/
def lbrace : Char := Char.ofNat 123

/-- Right brace character, written by code point. -/
def rbrace : Char := Char.ofNat 125

/-- Hexadecimal digit value. -/
def hexVal (c : Char) : Option Nat :=
  let n := c.toNat
  if 48 ≤ n ∧ n ≤ 57 then some (n - 48)
  else if 97 ≤ n ∧ n ≤ 102 then some (n - 97 + 10)
  else if 65 ≤ n ∧ n ≤ 70 then some (n - 65 + 10)
  else none

/-- Read four hexadecimal digits of a unicode escape. -/
def parseHex4 : List Char → Option (Nat × List Char)
  | a :: b :: c :: d :: rest => do
    let va ← hexVal a
    let vb ← hexVal b
    let vc ← hexVal c
    let vd ← hexVal d
    some (va * 4096 + vb * 256 + vc * 16 + vd, rest)
  | _ => none

/-- Parse the body of a JSON string after the opening quote, handling
escapes, unicode escapes with surrogate pairs, and rejecting raw control
characters, as serde_json does. -/
def parseJStringBody : Nat → List Char → Option (List Char × List Char)
  | 0, _ => none
  | _ + 1, [] => none
  | fuel + 1, c :: rest =>
    if c = '"' then some ([], rest)
    else if c = '\\' then
      match rest with
      | [] => none
      | e :: rest2 =>
        if e = '"' ∨ e = '\\' ∨ e = '/' then do
          let (tail, rem) ← parseJStringBody fuel rest2
          some (e :: tail, rem)
        else if e = 'b' then do
          let (tail, rem) ← parseJStringBody fuel rest2
          some (Char.ofNat 8 :: tail, rem)
        else if e = 'f' then do
          let (tail, rem) ← parseJStringBody fuel rest2
          some (Char.ofNat 12 :: tail, rem)
        else if e = 'n' then do
          let (tail, rem) ← parseJStringBody fuel rest2
          some ('\n' :: tail, rem)
        else if e = 'r' then do
          let (tail, rem) ← parseJStringBody fuel rest2
          some ('\r' :: tail, rem)
        else if e = 't' then do
          let (tail, rem) ← parseJStringBody fuel rest2
          some ('\t' :: tail, rem)
        else if e = 'u' then do
          let (n, rest3) ← parseHex4 rest2
          if 55296 ≤ n ∧ n < 56320 then
            match rest3 with
            | u :: v :: rest4 =>
              if u = '\\' ∧ v = 'u' then do
                let (m, rest5) ← parseHex4 rest4
                if 56320 ≤ m ∧ m < 57344 then do
                  let cp := 65536 + (n - 55296) * 1024 + (m - 56320)
                  let (tail, rem) ← parseJStringBody fuel rest5
                  some (Char.ofNat cp :: tail, rem)
                else none
              else none
            | _ => none
          else if 56320 ≤ n ∧ n < 57344 then none
          else do
            let (tail, rem) ← parseJStringBody fuel rest3
            some (Char.ofNat n :: tail, rem)
        else none
    else if c.toNat < 32 then none
    else do
      let (tail, rem) ← parseJStringBody fuel rest
      some (c :: tail, rem)

/-- Decimal digit test. -/
def isDigitCh (c : Char) : Bool := 48 ≤ c.toNat && c.toNat ≤ 57

/-- Take a run of leading decimal digits. -/
def takeDigits : List Char → (List Char × List Char)
  | [] => ([], [])
  | c :: rest =>
    if isDigitCh c then
      let (ds, rem) := takeDigits rest
      (c :: ds, rem)
    else ([], c :: rest)

/-- Parse a JSON number per the JSON grammar, returning its lexeme. -/
def parseJNumber (cs : List Char) : Option (List Char × List Char) := do
  let (sign, afterSign) :=
    match cs with
    | '-' :: rest => (['-'], rest)
    | _ => ([], cs)
  let (intPart, afterInt) ←
    match afterSign with
    | '0' :: rest => some (['0'], rest)
    | c :: rest =>
      if isDigitCh c then
        let (ds, rem) := takeDigits rest
        some (c :: ds, rem)
      else none
    | [] => none
  let (fracPart, afterFrac) ←
    match afterInt with
    | '.' :: rest =>
      let (ds, rem) := takeDigits rest
      if ds.isEmpty then none else some ('.' :: ds, rem)
    | _ => some ([], afterInt)
  let (expPart, afterExp) ←
    match afterFrac with
    | c :: rest =>
      if c = 'e' ∨ c = 'E' then
        let (es, rest2) :=
          match rest with
          | '+' :: r => (['+'], r)
          | '-' :: r => (['-'], r)
          | r => ([], r)
        let (ds, rem) := takeDigits rest2
        if ds.isEmpty then none else some (c :: es ++ ds, rem)
      else some ([], c :: rest)
    | [] => some ([], [])
  some (sign ++ intPart ++ fracPart ++ expPart, afterExp)

mutual

/-- Parse one JSON value from the input, fuel-bounded (serde_json itself
bounds recursion depth). -/
def parseJValue : Nat → List Char → Option (JValue × List Char)
  | 0, _ => none
  | fuel + 1, cs =>
    match skipWs cs with
    | [] => none
    | c :: rest =>
      if c = 'n' then
        match rest with
        | 'u' :: 'l' :: 'l' :: rem => some (JValue.null, rem)
        | _ => none
      else if c = 't' then
        match rest with
        | 'r' :: 'u' :: 'e' :: rem => some (JValue.boolean true, rem)
        | _ => none
      else if c = 'f' then
        match rest with
        | 'a' :: 'l' :: 's' :: 'e' :: rem => some (JValue.boolean false, rem)
        | _ => none
      else if c = '"' then do
        let (body, rem) ← parseJStringBody (rest.length + 1) rest
        some (JValue.string (String.mk body), rem)
      else if c = '[' then
        match skipWs rest with
        | ']' :: rem => some (JValue.array [], rem)
        | other => do
          let (items, rem) ← parseJItems fuel other
          some (JValue.array items, rem)
      else if c = lbrace then
        match skipWs rest with
        | d :: rem =>
          if d = rbrace then some (JValue.object [], rem)
          else do
            let (fields, rem2) ← parseJFields fuel (d :: rem)
            some (JValue.object fields, rem2)
        | [] => none
      else do
        let (lexeme, rem) ← parseJNumber (c :: rest)
        some (JValue.number (String.mk lexeme), rem)

/-- Parse the comma-separated items of a non-empty JSON array, up to and
including the closing bracket. -/
def parseJItems : Nat → List Char → Option (List JValue × List Char)
  | 0, _ => none
  | fuel + 1, cs => do
    let (v, rem) ← parseJValue fuel cs
    match skipWs rem with
    | ',' :: rem2 => do
      let (vs, rem3) ← parseJItems fuel rem2
      some (v :: vs, rem3)
    | ']' :: rem2 => some ([v], rem2)
    | _ => none

/-- Parse the comma-separated fields of a non-empty JSON object, up to and
including the closing brace. -/
def parseJFields : Nat → List Char → Option (List (String × JValue) × List Char)
  | 0, _ => none
  | fuel + 1, cs => do
    match skipWs cs with
    | '"' :: rest => do
      let (key, rem) ← parseJStringBody (rest.length + 1) rest
      match skipWs rem with
      | ':' :: rem2 => do
        let (v, rem3) ← parseJValue fuel rem2
        match skipWs rem3 with
        | ',' :: rem4 => do
          let (fs, rem5) ← parseJFields fuel rem4
          some ((String.mk key, v) :: fs, rem5)
        | d :: rem4 =>
          if d = rbrace then some ([(String.mk key, v)], rem4) else none
        | [] => none
      | _ => none
    | _ => none

end

/-- Parse a complete JSON document: one value followed only by whitespace,
as serde_json::from_str requires. -/
def jsonParse (s : String) : Option JValue :=
  match parseJValue (2 * s.data.length + 4) s.data with
  | some (v, rest) => if skipWs rest = [] then some v else none
  | none => none

/-- Lookup of json[key].as_str(): on an object the entry for the key (last
occurrence wins, matching map insertion), provided the value is a string;
Null, hence failure, on everything else. -/
def jsonGetStr (j : JValue) (key : String) : Option String :=
  match j with
  | JValue.object fields =>
    match (fields.reverse.find? (fun p => p.1 == key)).map (fun p => p.2) with
    | some (JValue.string s) => some s
    | _ => none
  | _ => none

/-- Embedding of extract_account_id (src/nsc.rs and src/lib.rs, identical
logic): split the token on dots, require exactly three segments,
base64-decode the payload, decode UTF-8, parse JSON and read the sub
string claim, reporting an error at each failed stage. -/
def extract_account_id (jwt : String) : Except String String :=
  match splitDot jwt with
  | [_, payload, _] =>
    match base64Decode payload with
    | none => Except.error ("Failed to decode JWT payload")
    | some bytes =>
      match utf8DecodeList bytes with
      | none => Except.error ("JWT payload is not UTF-8")
      | some chars =>
        match jsonParse (String.mk chars) with
        | none => Except.error ("Failed to parse JWT JSON")
        | some j =>
          match jsonGetStr j ("sub") with
          | some s => Except.ok s
          | none => Except.error ("No sub field in JWT")
  | parts => Except.error ("Invalid JWT format: " ++ toString parts.length ++ " parts")

/-- A subject export of an account (src/config.rs, src/lib.rs). -/
structure ExportConfig where
  subject : String
  is_service : Bool
  deriving Repr, DecidableEq

/-- A subject import referencing the exporting account by name
(src/config.rs, src/lib.rs). -/
structure ImportConfig where
  subject : String
  account : String
  deriving Repr, DecidableEq

/-- A user with its permitted and denied subjects (src/config.rs,
src/lib.rs). -/
structure UserConfig where
  name : String
  allowed_subjects : List String
  denied_subjects : List String
  expiry : Option String
  deriving Repr, DecidableEq

/-- An account of the deployment (src/config.rs, src/lib.rs). -/
structure AccountConfig where
  name : String
  users : List UserConfig
  is_system_account : Bool
  unique_name : String
  max_connections : Option Int
  max_payload : Option Int
  exports : List ExportConfig
  imports : List ImportConfig
  deriving Repr, DecidableEq

/-- The operator of the deployment (src/config.rs, src/lib.rs). -/
structure OperatorConfig where
  name : String
  reuse_existing : Bool
  deriving Repr, DecidableEq

/-- Resolver selection of the single-server pipeline (src/lib.rs,
src/config.rs). -/
inductive ResolverType where
  | memory
  | url (u : String)
  deriving Repr, DecidableEq

/-- Server options of the single-server pipeline (src/lib.rs,
src/config.rs). -/
structure ServerOptions where
  port : Nat
  jetstream : Bool
  resolver : ResolverType
  deriving Repr, DecidableEq

namespace NatsSetup

/-- The deployment descriptor of the single-server pipeline
(struct NatsConfig in src/lib.rs). -/
structure NatsConfig where
  operator : OperatorConfig
  accounts : List AccountConfig
  output_dir : String
  server_options : ServerOptions
  deriving Repr, DecidableEq

/-- Normalization of one account, as the loops in NatsSetup::from_json_file,
NatsSetup::new and NatsSetup::for_test perform it: an account whose
unique_name is empty receives name-uuid, any other account is untouched.
The fresh UUID drawn for the account is passed in. -/
def normalizeAccount (uuid : String) (a : AccountConfig) : AccountConfig :=
  if a.unique_name = "" then
    { a with unique_name := a.name ++ "-" ++ uuid }
  else a

/-- The normalization loop over the accounts list, each iteration drawing
the fresh UUID for its position. -/
def normalizeAccountsFrom (accUuid : Nat → String) (i : Nat) :
    List AccountConfig → List AccountConfig
  | [] => []
  | a :: rest => normalizeAccount (accUuid i) a :: normalizeAccountsFrom accUuid (i + 1) rest

/-- Normalization of the whole descriptor (NatsSetup::from_json_file and
NatsSetup::new, src/lib.rs lines 87-93 and 101-115): the operator name
unconditionally becomes name-uuid, and each account is normalized with its
own fresh UUID.  accUuid gives the UUID drawn for the account at each
position. -/
def normalizeConfig (opUuid : String) (accUuid : Nat → String) (c : NatsConfig) : NatsConfig :=
  { c with
    operator := { c.operator with name := c.operator.name ++ "-" ++ opUuid }
    accounts := normalizeAccountsFrom accUuid 0 c.accounts }

/-- One external nsc invocation (or output artifact copy) issued by
NatsSetup::initialize. -/
inductive NscCall where
  | nscInit (operatorName : String)
  | copyDefaultSysJwt (accountName : String)
  | addAccount (uniqueName : String)
  | editAccount (uniqueName : String) (conns : Option Int) (data : Option Int)
  | addExport (uniqueName subject : String) (service : Bool)
  | addImport (uniqueName srcAccount subject : String)
  | addUser (uniqueName userName : String)
  | generateCreds (uniqueName userName : String)
  deriving Repr, DecidableEq

/-- The nsc invocations NatsSetup::create_account issues for one account
(src/lib.rs lines 248-381): add account, an optional edit for limits, one
add export per export, one add import per import, in that order. -/
def accountCreationCalls (a : AccountConfig) : List NscCall :=
  [NscCall.addAccount a.unique_name]
  ++ (if a.max_connections.isSome || a.max_payload.isSome then
        [NscCall.editAccount a.unique_name a.max_connections a.max_payload]
      else [])
  ++ a.exports.map (fun e => NscCall.addExport a.unique_name e.subject e.is_service)
  ++ a.imports.map (fun i => NscCall.addImport a.unique_name i.account i.subject)

/-- The nsc invocations NatsSetup::create_user issues for the users of one
account (src/lib.rs lines 383-462). -/
def userCalls (a : AccountConfig) : List NscCall :=
  a.users.flatMap (fun u => [NscCall.addUser a.unique_name u.name,
                          NscCall.generateCreds a.unique_name u.name])

/-- The calls the initialize loop issues for one account (src/lib.rs lines
167-194): a system account named SYS only has the default SYS JWT copied,
every other account is created through nsc; afterwards its users are
created. -/
def accountCalls (a : AccountConfig) : List NscCall :=
  (if a.is_system_account && a.name == "SYS" then [NscCall.copyDefaultSysJwt a.name]
   else accountCreationCalls a)
  ++ userCalls a

/-- The full sequence of external invocations NatsSetup::initialize issues
while every call succeeds (src/lib.rs lines 135-214).  A reuse_existing
operator hits unimplemented, a panic, modelled as none.  Accounts are
processed in the order of the accounts list; no reordering and no
validation of import targets happens anywhere. -/
def initCalls (c : NatsConfig) : Option (List NscCall) :=
  if c.operator.reuse_existing then none
  else some (NscCall.nscInit c.operator.name :: c.accounts.flatMap accountCalls)

/-- The unique_names of the accounts in the order their nsc add account
invocations appear in a call list. -/
def createdAccountsOf (calls : List NscCall) : List String :=
  calls.filterMap (fun c =>
    match c with
    | NscCall.addAccount n => some n
    | _ => none)

/-- The names of the accounts in the order the initialize loop creates
their identities through nsc (system accounts named SYS are served from
the default SYS JWT instead). -/
def creationOrder (c : NatsConfig) : List String :=
  (c.accounts.filter (fun a => !(a.is_system_account && a.name == "SYS"))).map (fun a => a.name)

/-- The system account subject id initialize resolves (src/lib.rs lines
164-197): each account marked system overwrites the previous choice; a
system account named SYS yields the default SYS id read from the freshly
initialized store, any other system account yields the id extracted from
its own JWT (idOf abstracts that external artifact).  none when no account
is marked system. -/
def systemAccountIdOf (defaultSysId : String) (idOf : AccountConfig → String)
    (c : NatsConfig) : Option String :=
  c.accounts.foldl (fun acc a =>
    if a.is_system_account && a.name == "SYS" then some defaultSysId
    else if a.is_system_account then some (idOf a)
    else acc) none

/-- The outcome of the system-account step of initialize (src/lib.rs lines
196-197): the resolved id, or the error the run aborts with when no
account was marked system.  There is no fallback to a default identity. -/
def systemAccountResult (defaultSysId : String) (idOf : AccountConfig → String)
    (c : NatsConfig) : Except String String :=
  match systemAccountIdOf defaultSysId idOf c with
  | some i => Except.ok i
  | none => Except.error ("No system account specified")

/-- The resolver preload lines initialize collects (src/lib.rs lines
164-194): one line per account of the deployment, keying the account JWT
by its subject id; jwtOf and idOf abstract the externally minted JWT of a
non-SYS account and its extracted id. -/
def resolverPreloadOf (defaultSysId defaultSysJwt : String)
    (idOf jwtOf : AccountConfig → String) (c : NatsConfig) : List String :=
  c.accounts.map (fun a =>
    if a.is_system_account && a.name == "SYS" then
      "    " ++ defaultSysId ++ ": \"" ++ defaultSysJwt ++ "\""
    else
      "    " ++ idOf a ++ ": \"" ++ jwtOf a ++ "\"")

/-- Embedding of NatsSetup::generate_server_config (src/lib.rs lines
464-494): port and fixed server name, an optional jetstream block, the
operator JWT, the system account, and the resolver directive, either
MEMORY with an optional preload block or a URL pointer. -/
def generate_server_config (c : NatsConfig)
    (operator_jwt system_account resolver_preload : String) : String :=
  let config := "port: " ++ toString c.server_options.port
    ++ "\nserver_name: \"natsforge_server\"\n\n"
  let config := config ++
    (if c.server_options.jetstream then
      "jetstream \x7b\n    store_dir: \"" ++ c.output_dir
        ++ "/jetstream\"\n    domain: \"core\"\n\x7d\n\n"
     else "")
  let config := config ++ "operator: \"" ++ operator_jwt ++ "\"\n"
  let config := config ++ "system_account: \"" ++ system_account ++ "\"\n"
  match c.server_options.resolver with
  | ResolverType.memory =>
    let config := config ++ "resolver: MEMORY\n"
    if resolver_preload ≠ "" then
      config ++ "resolver_preload: \x7b\n" ++ resolver_preload ++ "\n\x7d\n"
    else config
  | ResolverType.url u => config ++ "resolver: URL(" ++ u ++ ")\n"

/-- The part of the single-server configuration text preceding the
resolver directive: port, fixed server name, optional jetstream block,
operator JWT and system account. -/
def configPrefix (c : NatsConfig) (operator_jwt system_account : String) : String :=
  "port: " ++ toString c.server_options.port
    ++ "\nserver_name: \"natsforge_server\"\n\n"
  ++ (if c.server_options.jetstream then
      "jetstream \x7b\n    store_dir: \"" ++ c.output_dir
        ++ "/jetstream\"\n    domain: \"core\"\n\x7d\n\n"
     else "")
  ++ "operator: \"" ++ operator_jwt ++ "\"\n"
  ++ "system_account: \"" ++ system_account ++ "\"\n"

end NatsSetup

/-- A jetstream subject transform or republish rule, as used by the
multi-server renderer (src/server.rs lines 26-40 and the tests). -/
structure SubjectTransform where
  src : String
  dest : String
  deriving Repr, DecidableEq

/-- Jetstream settings of a server (src/config.rs with the
subject_transform and republish fields the renderer and tests use). -/
structure JetStreamConfig where
  enabled : Bool
  store_dir : Option String
  domain : Option String
  max_memory : Option Int
  max_storage : Option Int
  subject_transform : Option SubjectTransform
  republish : List SubjectTransform
  deriving Repr, DecidableEq

/-- TLS settings of a server (src/config.rs). -/
structure TlsConfig where
  cert_file : String
  key_file : String
  ca_file : Option String
  deriving Repr, DecidableEq

/-- A leafnode remote (src/config.rs). -/
structure RemoteConfig where
  url : String
  account : String
  credentials : String
  deriving Repr, DecidableEq

/-- Leafnode settings of a server (src/config.rs). -/
structure LeafNodeConfig where
  port : Option Nat
  remotes : List RemoteConfig
  deriving Repr, DecidableEq

/-- A server unit of the multi-server deployment (src/config.rs with the
mappings field the renderer and tests use).  The mappings list carries the
entries of the Rust HashMap in its iteration order. -/
structure ServerConfig where
  name : String
  port : Nat
  jetstream : JetStreamConfig
  leafnodes : LeafNodeConfig
  accounts : List AccountConfig
  output_dir : String
  tls : Option TlsConfig
  mappings : List (String × String)
  deriving Repr, DecidableEq

/-- HashMap::get on the account-JWT map, modelled as association-list
lookup (keys are unique in a HashMap, so lookup order is irrelevant). -/
def lookupStr (m : List (String × String)) (k : String) : Option String :=
  (m.find? (fun p => p.1 == k)).map (fun p => p.2)

/-- PathBuf::join of an output directory and a file name. -/
def pathJoin (dir file : String) : String :=
  if file.startsWith ("/") then file
  else if dir = "" then file
  else dir ++ "/" ++ file

/-- The body of the leafnode remotes block (src/server.rs lines 64-81),
one entry per remote in order: the remote account name is looked up in the
account-JWT map and its subject id extracted; either failure is a panic in
the source, modelled as none. -/
def renderRemotes (output_dir : String) (account_jwts : List (String × String)) :
    List RemoteConfig → Option String
  | [] => some ""
  | r :: rest => do
    let jwt ← lookupStr account_jwts r.account
    let id ← (extract_account_id jwt).toOption
    let tail ← renderRemotes output_dir account_jwts rest
    some ("        \x7b url: \"" ++ r.url ++ "\", account: \"" ++ id
      ++ "\", credentials: \"" ++ pathJoin output_dir r.credentials
      ++ "\" \x7d,\n" ++ tail)

/-- Embedding of generate_server_config (src/server.rs lines 5-92).  The
blocks are appended in the source order; a missing remote JWT or a failed
subject-id extraction is a panic, modelled as none. -/
def generate_server_config (server : ServerConfig)
    (operator_jwt system_account_id resolver_preload : String)
    (account_jwts : List (String × String)) : Option String :=
  let config := "port: " ++ toString server.port ++ "\nserver_name: \""
    ++ server.name ++ "\"\n\n"
  let config := config ++
    (if server.jetstream.enabled then
      "jetstream \x7b\n"
      ++ "    store_dir: \"" ++ (server.jetstream.store_dir.getD ("jetstream"))
      ++ "\"\n    domain: \"" ++ (server.jetstream.domain.getD ("core")) ++ "\"\n"
      ++ (match server.jetstream.max_memory with
          | some m => "    max_memory_store: " ++ toString m ++ "\n"
          | none => "")
      ++ (match server.jetstream.max_storage with
          | some m => "    max_file_store: " ++ toString m ++ "\n"
          | none => "")
      ++ (match server.jetstream.subject_transform with
          | some t => "    subject_transform \x7b src: \"" ++ t.src
            ++ "\", dest: \"" ++ t.dest ++ "\" \x7d\n"
          | none => "")
      ++ (if server.jetstream.republish.isEmpty then ""
          else "    republish = [\n"
            ++ String.join (server.jetstream.republish.map (fun r =>
                 "        \x7b src: \"" ++ r.src ++ "\", dest: \"" ++ r.dest
                 ++ "\" \x7d,\n"))
            ++ "    ]\n")
      ++ "\x7d\n\n"
     else "")
  let config := config ++
    (match server.tls with
     | some tls =>
       "tls \x7b\n    cert_file: \"" ++ tls.cert_file ++ "\"\n    key_file: \""
       ++ tls.key_file ++ "\"\n"
       ++ (match tls.ca_file with
           | some ca => "    ca_file: \"" ++ ca ++ "\"\n"
           | none => "")
       ++ "\x7d\n\n"
     | none => "")
  let config := config ++
    (if server.mappings.isEmpty then ""
     else "mappings: \x7b\n"
       ++ String.join (server.mappings.map (fun p =>
            "    \"" ++ p.1 ++ "\": \"" ++ p.2 ++ "\",\n"))
       ++ "\x7d\n\n")
  let config := config ++
    (match server.leafnodes.port with
     | some port => "leafnodes \x7b\n    port: " ++ toString port ++ "\n\x7d\n\n"
     | none => "")
  match (if server.leafnodes.remotes.isEmpty then some ""
         else (renderRemotes server.output_dir account_jwts server.leafnodes.remotes).map
           (fun body => "leafnodes \x7b\n    remotes = [\n" ++ body ++ "    ]\n\x7d\n\n")) with
  | none => none
  | some remotesBlock =>
    some (config ++ remotesBlock
      ++ "operator: \"" ++ operator_jwt ++ "\"\nsystem_account: \""
      ++ system_account_id ++ "\"\nresolver: MEMORY\n"
      ++ (if resolver_preload ≠ "" then
            "resolver_preload: \x7b\n" ++ resolver_preload ++ "\n\x7d\n"
          else ""))

/-- The leading port and server-name lines of the rendered configuration. -/
def headerBlock (server : ServerConfig) : String :=
  "port: " ++ toString server.port ++ "\nserver_name: \"" ++ server.name ++ "\"\n\n"

/-- The jetstream block of the rendered configuration. -/
def jetstreamBlock (js : JetStreamConfig) : String :=
  "jetstream \x7b\n"
  ++ "    store_dir: \"" ++ (js.store_dir.getD ("jetstream"))
  ++ "\"\n    domain: \"" ++ (js.domain.getD ("core")) ++ "\"\n"
  ++ (match js.max_memory with
      | some m => "    max_memory_store: " ++ toString m ++ "\n"
      | none => "")
  ++ (match js.max_storage with
      | some m => "    max_file_store: " ++ toString m ++ "\n"
      | none => "")
  ++ (match js.subject_transform with
      | some t => "    subject_transform \x7b src: \"" ++ t.src
        ++ "\", dest: \"" ++ t.dest ++ "\" \x7d\n"
      | none => "")
  ++ (if js.republish.isEmpty then ""
      else "    republish = [\n"
        ++ String.join (js.republish.map (fun r =>
             "        \x7b src: \"" ++ r.src ++ "\", dest: \"" ++ r.dest
             ++ "\" \x7d,\n"))
        ++ "    ]\n")
  ++ "\x7d\n\n"

/-- The TLS block of the rendered configuration. -/
def tlsBlock (tls : TlsConfig) : String :=
  "tls \x7b\n    cert_file: \"" ++ tls.cert_file ++ "\"\n    key_file: \""
  ++ tls.key_file ++ "\"\n"
  ++ (match tls.ca_file with
      | some ca => "    ca_file: \"" ++ ca ++ "\"\n"
      | none => "")
  ++ "\x7d\n\n"

/-- The subject-mappings block of the rendered configuration. -/
def mappingsBlock (m : List (String × String)) : String :=
  "mappings: \x7b\n"
  ++ String.join (m.map (fun p => "    \"" ++ p.1 ++ "\": \"" ++ p.2 ++ "\",\n"))
  ++ "\x7d\n\n"

/-- The leafnode listen-port block of the rendered configuration. -/
def leafPortBlock (port : Nat) : String :=
  "leafnodes \x7b\n    port: " ++ toString port ++ "\n\x7d\n\n"

/-- The leafnode remotes block of the rendered configuration: empty when
the server has no remotes, otherwise each remote resolved against the
account-JWT map; a failed lookup or extraction is a panic, modelled as
none. -/
def remotesBlockOpt (server : ServerConfig)
    (account_jwts : List (String × String)) : Option String :=
  if server.leafnodes.remotes.isEmpty then some ""
  else (renderRemotes server.output_dir account_jwts server.leafnodes.remotes).map
    (fun body => "leafnodes \x7b\n    remotes = [\n" ++ body ++ "    ]\n\x7d\n\n")

/-- The closing operator, system-account and resolver lines of the
rendered configuration. -/
def footerBlock (operator_jwt system_account_id resolver_preload : String) : String :=
  "operator: \"" ++ operator_jwt ++ "\"\nsystem_account: \""
  ++ system_account_id ++ "\"\nresolver: MEMORY\n"
  ++ (if resolver_preload ≠ "" then
        "resolver_preload: \x7b\n" ++ resolver_preload ++ "\n\x7d\n"
      else "")

/-- The outcome of nsc::create_operator (src/nsc.rs lines 9-59), with the
trust store contents passed in as a partial map from paths to file
contents and the fresh mint (nsc init plus readback) left abstract. -/
inductive OperatorAction where
  | loadedExisting (jwt : String)
  | missingOperator (path : String)
  | mintFresh (name store : String)
  deriving Repr, DecidableEq

/-- The well-known operator JWT path store/name/name.jwt. -/
def operatorJwtPath (store name : String) : String :=
  store ++ "/" ++ name ++ "/" ++ name ++ ".jwt"

/-- Embedding of nsc::create_operator (src/nsc.rs lines 9-20 for the reuse
branch): with reuse_existing the JWT at the well-known path is returned,
or a missing-operator error when no file is there; otherwise nsc init
mints a fresh operator. -/
def create_operator (operator : OperatorConfig) (store_dir : String)
    (fs : String → Option String) : OperatorAction :=
  if operator.reuse_existing then
    match fs (operatorJwtPath store_dir operator.name) with
    | some contents => OperatorAction.loadedExisting contents
    | none => OperatorAction.missingOperator (operatorJwtPath store_dir operator.name)
  else OperatorAction.mintFresh operator.name store_dir

/-- Successors of a node in an edge list. -/
def succs (edges : List (String × String)) (x : String) : List String :=
  (edges.filter (fun e => e.1 == x)).map (fun e => e.2)

/-- Fuel-bounded forward closure of a node set under an edge list. -/
def reachSet : Nat → List (String × String) → List String → List String
  | 0, _, acc => acc
  | f + 1, edges, acc =>
    let next := (acc.flatMap (succs edges)).filter (fun y => !(acc.contains y))
    if next.isEmpty then acc else reachSet f edges (acc ++ next)

/-- The import graph of a deployment: an edge from the exporting account
name to each account that imports from it. -/
def importEdges (c : NatsSetup.NatsConfig) : List (String × String) :=
  c.accounts.flatMap (fun v => v.imports.map (fun i => (i.account, v.name)))

/-- Whether the import graph is acyclic: no edge closes a path back to its
own source. -/
def acyclicImports (c : NatsSetup.NatsConfig) : Bool :=
  (importEdges c).all (fun e =>
    !((reachSet ((importEdges c).length + 1) (importEdges c) [e.2]).contains e.1))

/-- Whether an account-name order is a topological order of the import
graph: every import whose target is declared places the exporter strictly
before the importer. -/
def isTopoOrder (order : List String) (c : NatsSetup.NatsConfig) : Bool :=
  c.accounts.all (fun v =>
    v.imports.all (fun imp =>
      !(c.accounts.any (fun a => a.name == imp.account))
      || decide (order.indexOf imp.account < order.indexOf v.name)))

/-- Whether some import of the deployment references an account name that
no declared account carries. -/
def hasUnknownImportTarget (c : NatsSetup.NatsConfig) : Bool :=
  c.accounts.any (fun v =>
    v.imports.any (fun imp => !(c.accounts.any (fun a => a.name == imp.account))))

/-- Whether one character list occurs contiguously inside another. -/
def containsSub (needle hay : List Char) : Bool :=
  (List.range (hay.length + 1)).any (fun i => needle.isPrefixOf (hay.drop i))

/-- Whether a string occurs as a substring of another. -/
def strContains (hay needle : String) : Bool :=
  containsSub needle.data hay.data

/-! Helper lemmas. -/

theorem normalizeAccountsFrom_getElem? (u : Nat → String) :
    ∀ (l : List AccountConfig) (i j : Nat),
      (NatsSetup.normalizeAccountsFrom u i l)[j]? =
        (l[j]?).map (fun a => NatsSetup.normalizeAccount (u (i + j)) a) := by
  intro l
  induction l with
  | nil => intro i j; simp [NatsSetup.normalizeAccountsFrom]
  | cons a rest ih =>
    intro i j
    cases j with
    | zero => simp [NatsSetup.normalizeAccountsFrom]
    | succ j =>
      simp only [NatsSetup.normalizeAccountsFrom, List.getElem?_cons_succ, ih (i + 1) j]
      have : i + 1 + j = i + (j + 1) := by omega
      rw [this]

theorem systemAccountIdOf_foldl_const (defaultSysId : String)
    (idOf : AccountConfig → String) :
    ∀ (l : List AccountConfig), (∀ a ∈ l, a.is_system_account = false) →
      ∀ acc : Option String,
        l.foldl (fun acc a =>
          if a.is_system_account && a.name == "SYS" then some defaultSysId
          else if a.is_system_account then some (idOf a)
          else acc) acc = acc := by
  intro l
  induction l with
  | nil => intro _ acc; rfl
  | cons a rest ih =>
    intro h acc
    have ha : a.is_system_account = false := h a (List.mem_cons_self a rest)
    simp only [List.foldl_cons, ha, Bool.false_and, Bool.false_eq_true, if_false]
    exact ih (fun b hb => h b (List.mem_cons_of_mem a hb)) acc

theorem createdAccountsOf_append (l1 l2 : List NatsSetup.NscCall) :
    NatsSetup.createdAccountsOf (l1 ++ l2)
      = NatsSetup.createdAccountsOf l1 ++ NatsSetup.createdAccountsOf l2 := by
  simp [NatsSetup.createdAccountsOf, List.filterMap_append]

theorem createdAccountsOf_userCalls (a : AccountConfig) :
    NatsSetup.createdAccountsOf (NatsSetup.userCalls a) = [] := by
  unfold NatsSetup.userCalls
  induction a.users with
  | nil => rfl
  | cons u rest ih =>
    simp only [List.flatMap_cons]
    rw [createdAccountsOf_append, ih]
    rfl

theorem createdAccountsOf_accountCreationCalls (a : AccountConfig) :
    NatsSetup.createdAccountsOf (NatsSetup.accountCreationCalls a) = [a.unique_name] := by
  unfold NatsSetup.accountCreationCalls
  rw [createdAccountsOf_append, createdAccountsOf_append, createdAccountsOf_append]
  have hedit : NatsSetup.createdAccountsOf
      (if a.max_connections.isSome || a.max_payload.isSome then
        [NatsSetup.NscCall.editAccount a.unique_name a.max_connections a.max_payload]
      else []) = [] := by
    by_cases h : a.max_connections.isSome || a.max_payload.isSome <;>
      simp [h, NatsSetup.createdAccountsOf]
  have hexp : NatsSetup.createdAccountsOf
      (a.exports.map (fun e =>
        NatsSetup.NscCall.addExport a.unique_name e.subject e.is_service)) = [] := by
    induction a.exports with
    | nil => rfl
    | cons e rest ih => simp [NatsSetup.createdAccountsOf]
  have himp : NatsSetup.createdAccountsOf
      (a.imports.map (fun i =>
        NatsSetup.NscCall.addImport a.unique_name i.account i.subject)) = [] := by
    induction a.imports with
    | nil => rfl
    | cons i rest ih => simp [NatsSetup.createdAccountsOf]
  rw [hedit, hexp, himp]
  rfl

theorem createdAccountsOf_accountCalls (a : AccountConfig) :
    NatsSetup.createdAccountsOf (NatsSetup.accountCalls a)
      = if a.is_system_account && a.name == "SYS" then [] else [a.unique_name] := by
  unfold NatsSetup.accountCalls
  rw [createdAccountsOf_append, createdAccountsOf_userCalls]
  by_cases h : a.is_system_account && a.name == "SYS"
  · simp [h, NatsSetup.createdAccountsOf]
  · simp only [h, if_false, Bool.false_eq_true]
    rw [createdAccountsOf_accountCreationCalls]
    simp [h]

theorem createdAccountsOf_flatMap (l : List AccountConfig) :
    NatsSetup.createdAccountsOf (l.flatMap NatsSetup.accountCalls)
      = (l.filter (fun a => !(a.is_system_account && a.name == "SYS"))).map
          (fun a => a.unique_name) := by
  induction l with
  | nil => rfl
  | cons a rest ih =>
    simp only [List.flatMap_cons]
    rw [createdAccountsOf_append, createdAccountsOf_accountCalls, ih, List.filter_cons]
    cases h : (a.is_system_account && a.name == "SYS") <;> simp [h]

/-! Concrete example data used by the claim theorems. -/

/-- An acyclic deployment whose declaration order is not topological:
account B, which imports from A, is declared (and therefore created)
before A. -/
def c1Cfg : NatsSetup.NatsConfig :=
  { operator := { name := "op", reuse_existing := false },
    accounts :=
      [{ name := "B", users := [], is_system_account := false, unique_name := "B-u",
         max_connections := none, max_payload := none, exports := [],
         imports := [{ subject := "s", account := "A" }] },
       { name := "A", users := [], is_system_account := false, unique_name := "A-u",
         max_connections := none, max_payload := none,
         exports := [{ subject := "s", is_service := false }], imports := [] }],
    output_dir := "out",
    server_options := { port := 4222, jetstream := false, resolver := ResolverType.memory } }

/-- The account of the unknown-import deployment. -/
def c2App : AccountConfig :=
  { name := "APP", users := [], is_system_account := false, unique_name := "APP-u",
    max_connections := none, max_payload := none, exports := [],
    imports := [{ subject := "s", account := "NOPE" }] }

/-- A deployment whose single account imports from a name no account
carries. -/
def c2Cfg : NatsSetup.NatsConfig :=
  { operator := { name := "op", reuse_existing := false },
    accounts := [c2App],
    output_dir := "out",
    server_options := { port := 4222, jetstream := false, resolver := ResolverType.memory } }

/-- A deployment with reuse of an existing operator requested. -/
def c7Cfg : NatsSetup.NatsConfig :=
  { operator := { name := "op", reuse_existing := true },
    accounts := [],
    output_dir := "out",
    server_options := { port := 4222, jetstream := false, resolver := ResolverType.memory } }

/-- An account whose unique_name is unset. -/
def c7Acct : AccountConfig :=
  { name := "APP", users := [], is_system_account := false, unique_name := "",
    max_connections := none, max_payload := none, exports := [], imports := [] }

/-- A deployment with a single account that is not marked as the system
account. -/
def c4Cfg : NatsSetup.NatsConfig :=
  { operator := { name := "op", reuse_existing := false },
    accounts := [{ name := "APP", users := [], is_system_account := false,
                   unique_name := "APP-u", max_connections := none,
                   max_payload := none, exports := [], imports := [] }],
    output_dir := "out",
    server_options := { port := 4222, jetstream := false, resolver := ResolverType.memory } }

/-- A deployment selecting the in-memory resolver. -/
def c9MemCfg : NatsSetup.NatsConfig :=
  { operator := { name := "op", reuse_existing := false },
    accounts := [],
    output_dir := "out",
    server_options := { port := 4222, jetstream := false, resolver := ResolverType.memory } }

/-- A deployment selecting an external URL resolver. -/
def c9UrlCfg : NatsSetup.NatsConfig :=
  { operator := { name := "op", reuse_existing := false },
    accounts := [],
    output_dir := "out",
    server_options := { port := 4222, jetstream := false,
                        resolver := ResolverType.url ("nats://resolver:4222") } }

/-! Claim theorems. -/

/-- C1 counterexample: the import graph of c1Cfg is acyclic, yet the order
in which initialize creates account identities is not a topological order
of it: the trace shows B being created, and its import added, before A is
created. -/
theorem c1_counterexample :
    acyclicImports c1Cfg = true
    ∧ isTopoOrder (NatsSetup.creationOrder c1Cfg) c1Cfg = false
    ∧ NatsSetup.initCalls c1Cfg
        = some [NatsSetup.NscCall.nscInit ("op"),
                NatsSetup.NscCall.addAccount ("B-u"),
                NatsSetup.NscCall.addImport ("B-u") ("A") ("s"),
                NatsSetup.NscCall.addAccount ("A-u"),
                NatsSetup.NscCall.addExport ("A-u") ("s") false] := by
  refine ⟨by decide, by decide, by decide⟩

/-- C1 (amended): initialize performs no topological reordering; for every
deployment not reusing an operator, the nsc add account invocations of
the run are exactly the declared accounts (system accounts named SYS
excepted, which are served from the default SYS artifact) in declaration
order, so the creation order is a topological order of the import graph
only when the declaration order already is one. -/
theorem c1_creation_follows_declaration (c : NatsSetup.NatsConfig)
    (h : c.operator.reuse_existing = false) :
    NatsSetup.createdAccountsOf ((NatsSetup.initCalls c).getD [])
      = (c.accounts.filter (fun a => !(a.is_system_account && a.name == "SYS"))).map
          (fun a => a.unique_name) := by
  simp only [NatsSetup.initCalls, h, Bool.false_eq_true, if_false, Option.getD_some]
  rw [show NatsSetup.createdAccountsOf
        (NatsSetup.NscCall.nscInit c.operator.name :: c.accounts.flatMap NatsSetup.accountCalls)
      = NatsSetup.createdAccountsOf (c.accounts.flatMap NatsSetup.accountCalls) from rfl]
  exact createdAccountsOf_flatMap c.accounts

/-- C1 witness: at the concrete deployment the created accounts are
exactly the declared ones in declaration order. -/
theorem c1_creation_follows_declaration_witness :
    NatsSetup.createdAccountsOf ((NatsSetup.initCalls c1Cfg).getD [])
      = (c1Cfg.accounts.filter (fun a => !(a.is_system_account && a.name == "SYS"))).map
          (fun a => a.unique_name) :=
  c1_creation_follows_declaration c1Cfg rfl

/-- C2 counterexample: a deployment with an import whose target name NOPE
is declared by no account still reaches the external issuer: the run
issues the operator-creating nsc init and the account creation of the
importing account, and passes the unknown name to an nsc add import
invocation, instead of failing before any identity creation. -/
theorem c2_counterexample :
    hasUnknownImportTarget c2Cfg = true
    ∧ NatsSetup.initCalls c2Cfg
        = some [NatsSetup.NscCall.nscInit ("op"),
                NatsSetup.NscCall.addAccount ("APP-u"),
                NatsSetup.NscCall.addImport ("APP-u") ("NOPE") ("s")]
    ∧ NatsSetup.NscCall.nscInit ("op") ∈ (NatsSetup.initCalls c2Cfg).getD [] := by
  refine ⟨by decide, by decide, by decide⟩

/-- C2 (amended): initialize validates no import targets: for every
deployment not reusing an operator, the run begins with the
operator-creating nsc init call, and every import of every issuer-created
account is forwarded verbatim to an nsc add import invocation, whether or
not its target name is declared; an unknown target can surface only as an
external issuer failure, after identity creation has begun. -/
theorem c2_no_import_validation (c : NatsSetup.NatsConfig) (v : AccountConfig)
    (imp : ImportConfig) (hre : c.operator.reuse_existing = false)
    (hv : v ∈ c.accounts) (hsys : (v.is_system_account && v.name == "SYS") = false)
    (himp : imp ∈ v.imports) :
    ((NatsSetup.initCalls c).getD []).head?
      = some (NatsSetup.NscCall.nscInit c.operator.name)
    ∧ NatsSetup.NscCall.addImport v.unique_name imp.account imp.subject
        ∈ (NatsSetup.initCalls c).getD [] := by
  simp only [NatsSetup.initCalls, hre, Bool.false_eq_true, if_false, Option.getD_some]
  refine ⟨rfl, ?_⟩
  apply List.mem_cons_of_mem
  apply List.mem_flatMap.mpr
  refine ⟨v, hv, ?_⟩
  unfold NatsSetup.accountCalls
  rw [hsys]
  apply List.mem_append_left
  unfold NatsSetup.accountCreationCalls
  apply List.mem_append_right
  exact List.mem_map.mpr ⟨imp, himp, rfl⟩

/-- C2 witness: for the unknown-target deployment, the head of the trace
is the operator creation and the unknown-target import call is issued. -/
theorem c2_no_import_validation_witness :
    ((NatsSetup.initCalls c2Cfg).getD []).head?
      = some (NatsSetup.NscCall.nscInit c2Cfg.operator.name)
    ∧ NatsSetup.NscCall.addImport c2App.unique_name ("NOPE") ("s")
        ∈ (NatsSetup.initCalls c2Cfg).getD [] :=
  c2_no_import_validation c2Cfg c2App { subject := "s", account := "NOPE" }
    rfl (by decide) rfl (by decide)

/-- C4: against the claim, the pipeline does not fall back to a default
system-account identity: whenever no account of the deployment is marked
as the system account, the system-account step of initialize returns the
error the run aborts with, for every default identity and every
assignment of account subject ids. -/
theorem c4_no_system_account_fails (c : NatsSetup.NatsConfig)
    (defaultSysId : String) (idOf : AccountConfig → String)
    (h : ∀ a ∈ c.accounts, a.is_system_account = false) :
    NatsSetup.systemAccountResult defaultSysId idOf c
      = Except.error ("No system account specified") := by
  have key : NatsSetup.systemAccountIdOf defaultSysId idOf c = none :=
    systemAccountIdOf_foldl_const defaultSysId idOf c.accounts h none
  simp [NatsSetup.systemAccountResult, key]

/-- C4 witness: the deployment whose single account APP is not a system
account aborts with the no-system-account error instead of falling back. -/
theorem c4_no_system_account_fails_witness :
    NatsSetup.systemAccountResult ("SAD3K") (fun a => a.name) c4Cfg
      = Except.error ("No system account specified") :=
  c4_no_system_account_fails c4Cfg ("SAD3K") (fun a => a.name) (by decide)

/-- C6: create_operator with reuse_existing set loads the operator JWT
from the well-known path store/name/name.jwt and returns its contents,
returns a missing-operator error value (not a panic) when nothing is at
that path, and mints a fresh operator identity when reuse_existing is
unset. -/
theorem c6_create_operator (op : OperatorConfig) (store : String)
    (fs : String → Option String) :
    (op.reuse_existing = true → ∀ c, fs (operatorJwtPath store op.name) = some c →
      create_operator op store fs = OperatorAction.loadedExisting c)
    ∧ (op.reuse_existing = true → fs (operatorJwtPath store op.name) = none →
      create_operator op store fs
        = OperatorAction.missingOperator (operatorJwtPath store op.name))
    ∧ (op.reuse_existing = false →
      create_operator op store fs = OperatorAction.mintFresh op.name store) := by
  refine ⟨?_, ?_, ?_⟩
  · intro hre c hfs
    simp [create_operator, hre, hfs]
  · intro hre hfs
    simp [create_operator, hre, hfs]
  · intro hre
    simp [create_operator, hre]

/-- C6 witness: over an empty trust store, reuse of operator op reports
the missing artifact at store/op/op.jwt. -/
theorem c6_create_operator_witness :
    create_operator { name := "op", reuse_existing := true } ("store") (fun _ => none)
      = OperatorAction.missingOperator (operatorJwtPath ("store") ("op")) :=
  (c6_create_operator { name := "op", reuse_existing := true } ("store")
    (fun _ => none)).2.1 rfl rfl

/-- C7 counterexample: with reuse of an existing operator requested, the
configured operator name is still changed, a random discriminator being
appended, contradicting the claim that it is kept unchanged. -/
theorem c7_counterexample :
    c7Cfg.operator.reuse_existing = true
    ∧ (NatsSetup.normalizeConfig ("u") (fun _ => "u") c7Cfg).operator.name
        ≠ c7Cfg.operator.name := by
  constructor
  · rfl
  · decide

/-- C7 (amended): normalization always appends the run discriminator to
the operator name, also when reuse_existing is set; each account is
rewritten positionally, an account with an empty unique_name receiving
name-discriminator and an account with an explicit unique_name staying
unchanged. -/
theorem c7_normalization (c : NatsSetup.NatsConfig) (opUuid : String)
    (accUuid : Nat → String) :
    (NatsSetup.normalizeConfig opUuid accUuid c).operator.name
      = c.operator.name ++ "-" ++ opUuid
    ∧ (∀ j : Nat, (NatsSetup.normalizeConfig opUuid accUuid c).accounts[j]? =
        (c.accounts[j]?).map (fun a => NatsSetup.normalizeAccount (accUuid j) a))
    ∧ (∀ uuid (a : AccountConfig), a.unique_name = "" →
        NatsSetup.normalizeAccount uuid a
          = { a with unique_name := a.name ++ "-" ++ uuid })
    ∧ (∀ uuid (a : AccountConfig), a.unique_name ≠ "" →
        NatsSetup.normalizeAccount uuid a = a) := by
  refine ⟨rfl, ?_, ?_, ?_⟩
  · intro j
    have := normalizeAccountsFrom_getElem? accUuid c.accounts 0 j
    simpa [NatsSetup.normalizeConfig] using this
  · intro uuid a h
    simp [NatsSetup.normalizeAccount, h]
  · intro uuid a h
    simp [NatsSetup.normalizeAccount, h]

/-- C7 witness: an account with empty unique_name receives the generated
name, at position 0 of the example account list. -/
theorem c7_normalization_witness :
    NatsSetup.normalizeAccount ("u7") c7Acct
      = { c7Acct with unique_name := c7Acct.name ++ "-" ++ "u7" } :=
  (c7_normalization c7Cfg ("u") (fun _ => "u")).2.2.1 ("u7") c7Acct rfl

set_option maxRecDepth 100000 in
/-- C9: the resolver directive of the rendered single-server
configuration is MEMORY followed by the in-place preload block built from
one entry per known account when the memory resolver is selected, and a
URL pointer when a URL resolver is configured; both variants are
reachable from the server model, as the two concrete deployments show. -/
theorem c9_resolver_directive :
    (∀ (c : NatsSetup.NatsConfig) (o s p : String),
      c.server_options.resolver = ResolverType.memory →
      NatsSetup.generate_server_config c o s p
        = NatsSetup.configPrefix c o s ++ "resolver: MEMORY\n"
          ++ (if p ≠ "" then "resolver_preload: \x7b\n" ++ p ++ "\n\x7d\n" else ""))
    ∧ (∀ (c : NatsSetup.NatsConfig) (o s p u : String),
      c.server_options.resolver = ResolverType.url u →
      NatsSetup.generate_server_config c o s p
        = NatsSetup.configPrefix c o s ++ "resolver: URL(" ++ u ++ ")\n")
    ∧ (∀ (d dj : String) (idOf jwtOf : AccountConfig → String)
        (c : NatsSetup.NatsConfig),
      (NatsSetup.resolverPreloadOf d dj idOf jwtOf c).length = c.accounts.length)
    ∧ strContains (NatsSetup.generate_server_config c9MemCfg ("O") ("S") ("    I: \"J\""))
        ("resolver: MEMORY") = true
    ∧ strContains (NatsSetup.generate_server_config c9UrlCfg ("O") ("S") (""))
        ("resolver: URL(nats://resolver:4222)") = true := by
  refine ⟨?_, ?_, ?_, ?_, ?_⟩
  · intro c o s p hres
    by_cases hp : p = ""
    · simp [NatsSetup.generate_server_config, NatsSetup.configPrefix, hres, hp,
        String.append_empty]
    · simp only [NatsSetup.generate_server_config, NatsSetup.configPrefix, hres, hp,
        ne_eq, not_false_eq_true, if_true, ite_true]
      apply String.ext
      simp [String.data_append, List.append_assoc]
  · intro c o s p u hres
    simp [NatsSetup.generate_server_config, NatsSetup.configPrefix, hres]
  · intro d dj idOf jwtOf c
    simp [NatsSetup.resolverPreloadOf]
  · decide
  · decide

/-- C9 witness: at the concrete memory-resolver deployment, the rendered
text is the prefix followed by the MEMORY directive and the preload
block. -/
theorem c9_resolver_directive_witness :
    NatsSetup.generate_server_config c9MemCfg ("O") ("S") ("    I: \"J\"")
      = NatsSetup.configPrefix c9MemCfg ("O") ("S") ++ "resolver: MEMORY\n"
        ++ (if ("    I: \"J\"" : String) ≠ "" then
              "resolver_preload: \x7b\n" ++ "    I: \"J\"" ++ "\n\x7d\n"
            else "") :=
  c9_resolver_directive.1 c9MemCfg ("O") ("S") ("    I: \"J\"") rfl

theorem renderRemotes_ext (d : String) (m1 m2 : List (String × String))
    (h : ∀ k, lookupStr m1 k = lookupStr m2 k) :
    ∀ l : List RemoteConfig, renderRemotes d m1 l = renderRemotes d m2 l := by
  intro l
  induction l with
  | nil => rfl
  | cons r rest ih =>
    simp only [renderRemotes]
    rw [h r.account, ih]

theorem bind_isSome_iff (o : Option α) (f : α → Option β) :
    ((o.bind f).isSome = true) ↔ ∃ a, o = some a ∧ (f a).isSome = true := by
  cases o <;> simp

theorem renderRemotes_isSome (d : String) (m : List (String × String)) :
    ∀ l : List RemoteConfig, (renderRemotes d m l).isSome
      = l.all (fun r =>
          ((lookupStr m r.account).bind
            (fun jwt => (extract_account_id jwt).toOption)).isSome) := by
  intro l
  induction l with
  | nil => rfl
  | cons r rest ih =>
    simp only [renderRemotes, List.all_cons]
    cases hl : lookupStr m r.account with
    | none => simp [hl]
    | some jwt =>
      cases he : (extract_account_id jwt).toOption with
      | none => simp [hl, he]
      | some id =>
        cases hr : renderRemotes d m rest with
        | none => simp [hl, he, hr, ← ih]
        | some tail => simp [hl, he, hr, ← ih]

/-- A server with two subject mappings and nothing else optional. -/
def c3Base : ServerConfig :=
  { name := "main-server", port := 4222,
    jetstream := { enabled := false, store_dir := none, domain := none,
                   max_memory := none, max_storage := none,
                   subject_transform := none, republish := [] },
    leafnodes := { port := none, remotes := [] },
    accounts := [], output_dir := "out", tls := none,
    mappings := [("a", "1"), ("b", "2")] }

/-- The same server with the mappings entries in the other iteration
order (HashMap iteration order is arbitrary per map instance). -/
def c3Swapped : ServerConfig :=
  { c3Base with mappings := [("b", "2"), ("a", "1")] }

set_option maxRecDepth 100000 in
/-- C3 counterexample: two servers identical in every field and whose
mappings maps hold the same entries, merely in a different iteration
order, render to different configuration text, so the renderer does
depend on the iteration order of the mappings map. -/
theorem c3_counterexample :
    c3Base.mappings ≠ c3Swapped.mappings
    ∧ c3Base.mappings.Perm c3Swapped.mappings
    ∧ c3Base.name = c3Swapped.name ∧ c3Base.port = c3Swapped.port
    ∧ c3Base.jetstream = c3Swapped.jetstream ∧ c3Base.tls = c3Swapped.tls
    ∧ c3Base.leafnodes = c3Swapped.leafnodes
    ∧ c3Base.output_dir = c3Swapped.output_dir
    ∧ generate_server_config c3Base ("O") ("S") ("") []
        ≠ generate_server_config c3Swapped ("O") ("S") ("") [] := by
  refine ⟨by decide, by decide, rfl, rfl, rfl, rfl, rfl, rfl, by decide⟩

/-- C3 (amended): the renderer is a pure function of its arguments, and
its output does not depend on the iteration order of the account-JWT map,
which is consulted only through lookups: any two maps agreeing on every
lookup yield byte-identical text; the mappings block, by contrast,
follows the iteration order of the mappings map, as the counterexample
shows. -/
theorem c3_renderer_lookup_invariant (s : ServerConfig) (o sys p : String)
    (m1 m2 : List (String × String)) (h : ∀ k, lookupStr m1 k = lookupStr m2 k) :
    generate_server_config s o sys p m1 = generate_server_config s o sys p m2 := by
  unfold generate_server_config
  rw [renderRemotes_ext s.output_dir m1 m2 h s.leafnodes.remotes]

/-- C3 witness: two different association lists representing the same
account-JWT map render identically. -/
theorem c3_renderer_lookup_invariant_witness :
    generate_server_config c3Base ("O") ("S") ("") [("A", "x")]
      = generate_server_config c3Base ("O") ("S") ("") [("A", "x"), ("A", "y")] :=
  c3_renderer_lookup_invariant c3Base ("O") ("S") ("") _ _ (by
    intro k
    simp only [lookupStr, List.find?]
    cases h : (("A" : String) == k) <;> simp [h])

/-- C10: the multi-server renderer succeeds exactly when every leafnode
remote resolves: for every server, the rendered text exists (no panic,
modelled as none) if and only if each remote's account name is a key of
the account-JWT map and the subject id of the found JWT is extractable. -/
theorem c10_renderer_totality (s : ServerConfig) (o sys p : String)
    (m : List (String × String)) :
    (generate_server_config s o sys p m).isSome = true
      ↔ ∀ r ∈ s.leafnodes.remotes, ∃ jwt, lookupStr m r.account = some jwt
          ∧ (extract_account_id jwt).toOption.isSome = true := by
  have key : ∀ l : List RemoteConfig,
      ((renderRemotes s.output_dir m l).isSome = true
        ↔ ∀ r ∈ l, ∃ jwt, lookupStr m r.account = some jwt
            ∧ (extract_account_id jwt).toOption.isSome = true) := by
    intro l
    rw [renderRemotes_isSome, List.all_eq_true]
    apply forall_congr'
    intro r
    exact imp_congr Iff.rfl (bind_isSome_iff _ _)
  unfold generate_server_config
  by_cases hemp : s.leafnodes.remotes.isEmpty
  · have hnil : s.leafnodes.remotes = [] := List.isEmpty_iff.mp hemp
    simp [hemp, hnil]
  · simp only [hemp, Bool.false_eq_true, if_false]
    cases hr : renderRemotes s.output_dir m s.leafnodes.remotes with
    | none =>
      have := (key s.leafnodes.remotes)
      rw [hr] at this
      simpa using this
    | some body =>
      have := (key s.leafnodes.remotes)
      rw [hr] at this
      simpa using this

/-- The one-server scenario: port 4222, jetstream disabled, no TLS, no
mappings, no leafnodes. -/
def c8Server : ServerConfig :=
  { name := "main-server", port := 4222,
    jetstream := { enabled := false, store_dir := none, domain := none,
                   max_memory := none, max_storage := none,
                   subject_transform := none, republish := [] },
    leafnodes := { port := none, remotes := [] },
    accounts := [], output_dir := "out", tls := none, mappings := [] }

set_option maxRecDepth 1000000 in
/-- C8: the rendered configuration is exactly the fixed-order
concatenation of the header, the jetstream block when enabled, the TLS
block when present, the mappings block when non-empty, the leafnode
listen-port block when set, the remotes block when non-empty, and the
closing operator, system-account and resolver lines; at the concrete
jetstream-disabled scenario server the output exists, contains the
system_account line and the listen port, and contains no jetstream
text. -/
theorem c8_block_order :
    (∀ (s : ServerConfig) (o sys p : String) (m : List (String × String)),
      generate_server_config s o sys p m = (remotesBlockOpt s m).map (fun rb =>
        headerBlock s
        ++ (if s.jetstream.enabled then jetstreamBlock s.jetstream else "")
        ++ (match s.tls with | some t => tlsBlock t | none => "")
        ++ (if s.mappings.isEmpty then "" else mappingsBlock s.mappings)
        ++ (match s.leafnodes.port with | some prt => leafPortBlock prt | none => "")
        ++ rb ++ footerBlock o sys p))
    ∧ (generate_server_config c8Server ("OPJWT") ("SYSID") ("    SYSID: \"AJWT\"") []).isSome
        = true
    ∧ strContains ((generate_server_config c8Server ("OPJWT") ("SYSID")
        ("    SYSID: \"AJWT\"") []).getD ("")) ("jetstream") = false
    ∧ strContains ((generate_server_config c8Server ("OPJWT") ("SYSID")
        ("    SYSID: \"AJWT\"") []).getD ("")) ("system_account:") = true
    ∧ strContains ((generate_server_config c8Server ("OPJWT") ("SYSID")
        ("    SYSID: \"AJWT\"") []).getD ("")) ("port: 4222") = true := by
  refine ⟨?_, by decide, by decide, by decide, by decide⟩
  intro s o sys p m
  unfold generate_server_config remotesBlockOpt
  cases hr : (if s.leafnodes.remotes.isEmpty then some ""
      else (renderRemotes s.output_dir m s.leafnodes.remotes).map
        (fun body => "leafnodes \x7b\n    remotes = [\n" ++ body ++ "    ]\n\x7d\n\n")) with
  | none => simp [hr]
  | some rb =>
    simp only [hr, Option.map_some]
    refine congrArg some ?_
    apply String.ext
    simp [headerBlock, jetstreamBlock, tlsBlock, mappingsBlock, leafPortBlock,
      footerBlock, String.data_append, List.append_assoc]

/-- C5: extract_account_id never panics and follows the claimed pipeline:
for every input it fails (isOk false) when the token does not split into
exactly three dot-separated segments, when the second segment is not
valid unpadded base64, not valid UTF-8 or not valid JSON, or when the
parsed payload carries no string sub field; and it returns exactly the
sub value when every stage succeeds. -/
theorem c5_extract_account_id (jwt : String) :
    ((splitDot jwt).length ≠ 3 → (extract_account_id jwt).isOk = false)
    ∧ (∀ h1 payload h3, splitDot jwt = [h1, payload, h3] →
        (base64Decode payload = none → (extract_account_id jwt).isOk = false)
        ∧ (∀ bs, base64Decode payload = some bs →
            (utf8DecodeList bs = none → (extract_account_id jwt).isOk = false)
            ∧ (∀ cs, utf8DecodeList bs = some cs →
                (jsonParse (String.mk cs) = none →
                  (extract_account_id jwt).isOk = false)
                ∧ (∀ j, jsonParse (String.mk cs) = some j →
                    (jsonGetStr j ("sub") = none →
                      (extract_account_id jwt).isOk = false)
                    ∧ (∀ v, jsonGetStr j ("sub") = some v →
                        extract_account_id jwt = Except.ok v))))) := by
  constructor
  · intro hlen
    rcases hs : splitDot jwt with _ | ⟨a, _ | ⟨b, _ | ⟨c, _ | ⟨d, rest⟩⟩⟩⟩ <;>
      simp [extract_account_id, hs, Except.isOk, Except.toBool]
    exact absurd (by rw [hs]; rfl) hlen
  · intro h1 payload h3 hs
    refine ⟨?_, ?_⟩
    · intro hb
      simp [extract_account_id, hs, hb, Except.isOk, Except.toBool]
    · intro bs hb
      refine ⟨?_, ?_⟩
      · intro hu
        simp [extract_account_id, hs, hb, hu, Except.isOk, Except.toBool]
      · intro cs hu
        refine ⟨?_, ?_⟩
        · intro hj
          simp [extract_account_id, hs, hb, hu, hj, Except.isOk, Except.toBool]
        · intro j hj
          refine ⟨?_, ?_⟩
          · intro hg
            simp [extract_account_id, hs, hb, hu, hj, hg, Except.isOk, Except.toBool]
          · intro v hg
            simp [extract_account_id, hs, hb, hu, hj, hg]

/-- C5 witness: a token with two dot-separated segments is rejected. -/
theorem c5_extract_account_id_witness :
    (extract_account_id ("ab")).isOk = false :=
  (c5_extract_account_id ("ab")).1 (by decide)

end NatsForge
